import Mathlib

/-!
# Verification of `geoid-toolkit` against its specification

Shallow embedding of the two source files of the repository:

* `geoid_toolkit/legendre_polynomials.py` — fully normalized Legendre
  polynomials and their first derivatives, embedded over `ℝ`.
* `geoid_toolkit/read_ICGEM_harmonics.py` — the gravity-model file reader,
  embedded over `ℚ` with the file contents given as structured data
  (header fields after the header-extraction loop, data lines after
  whitespace tokenization and numeric conversion).

Numpy floating point arithmetic is modelled by exact real (respectively
rational) arithmetic; numpy `IndexError` / `ValueError` raises are modelled
by an `Except String` result.
-/

/-! ## Legendre engine: `legendre_polynomials.py` -/

/-- The unnormalized scratch recurrence of `legendre_polynomials`:
`ptemp[0,:] = 1.0`, `ptemp[1,:] = x`, and for `l = 2 … lmax`
`ptemp[l,:] = (((2.0*l)-1.0)/l)*x*ptemp[l-1,:] - ((l-1.0)/l)*ptemp[l-2,:]`,
per evaluation point. -/
noncomputable def ptemp (x : ℝ) : ℕ → ℝ
  | 0 => 1
  | 1 => x
  | n + 2 =>
      ((2 * ((n : ℝ) + 2) - 1) / ((n : ℝ) + 2)) * x * ptemp x (n + 1)
        - ((((n : ℝ) + 2) - 1) / ((n : ℝ) + 2)) * ptemp x n

/-- The normalized polynomial values written into `pl` by the source:
`pl[0,:] = ptemp[0,:]`, `pl[1,:] = np.sqrt(3.0)*ptemp[1,:]`, and inside the
loop `pl[l,:] = np.sqrt((2.0*l)+1.0)*ptemp[l,:]` for `l ≥ 2`. -/
noncomputable def plVal (x : ℝ) : ℕ → ℝ
  | 0 => 1
  | 1 => Real.sqrt 3 * x
  | n + 2 => Real.sqrt (2 * ((n : ℝ) + 2) + 1) * ptemp x (n + 2)

/-- The derivative coupling factor of the source:
`fl = np.sqrt(((l**2.0) * (2.0*l + 1.0)) / (2.0*l - 1.0))`. -/
noncomputable def fl (l : ℕ) : ℝ :=
  Real.sqrt ((l : ℝ) ^ 2 * (2 * (l : ℝ) + 1) / (2 * (l : ℝ) - 1))

/-- The derivative values written into `dpl` by the source: row `0` stays
zero, and for `l = 1 … lmax`
`dpl[l,:] = (1.0/np.sqrt(1.0 - x**2))*(l*x*pl[l,:] - fl*pl[l-1,:])`. -/
noncomputable def dplVal (x : ℝ) : ℕ → ℝ
  | 0 => 0
  | n + 1 =>
      (1 / Real.sqrt (1 - x ^ 2)) *
        (((n : ℝ) + 1) * x * plVal x (n + 1) - fl (n + 1) * plVal x n)

/-- Embedding of `legendre_polynomials(lmax, x)` (a scalar `x` is passed as a
one-element list, matching the `nx = 1` branch of the source).  The source
allocates `np.zeros((lmax+1, nx))` — a `ValueError` when `lmax+1 < 0` — and
then unconditionally assigns `ptemp[0,:]` and `ptemp[1,:]`, which raise an
`IndexError` when the matrices have fewer than 1 (resp. 2) rows, i.e. for
`lmax = -1` and `lmax = 0`.  Otherwise it returns the two
`(lmax+1) × nx` matrices of values and derivatives. -/
noncomputable def legendre_polynomials (lmax : ℤ) (x : List ℝ) :
    Except String (List (List ℝ) × List (List ℝ)) :=
  if lmax + 1 < 0 then
    .error "ValueError: negative dimensions are not allowed"
  else if (lmax + 1).toNat = 0 then
    .error "IndexError: index 0 is out of bounds for axis 0 with size 0"
  else if (lmax + 1).toNat = 1 then
    .error "IndexError: index 1 is out of bounds for axis 0 with size 1"
  else
    .ok ((List.range (lmax + 1).toNat).map fun l => x.map fun xi => plVal xi l,
         (List.range (lmax + 1).toNat).map fun l => x.map fun xi => dplVal xi l)

/-! ### Helper lemmas -/

theorem getD_range_map {α : Type _} (f : ℕ → α) (n l : ℕ) (d : α) (h : l < n) :
    ((List.range n).map f).getD l d = f l := by
  rw [List.getD_eq_getElem?_getD, List.getElem?_map, List.getElem?_range h]
  rfl

theorem getD_map_of_lt {α β : Type _} (f : α → β) (x : List α) (i : ℕ)
    (d : α) (e : β) (h : i < x.length) :
    (x.map f).getD i e = f (x.getD i d) := by
  rw [List.getD_eq_getElem?_getD, List.getElem?_map,
    List.getD_eq_getElem?_getD, List.getElem?_eq_getElem h]
  rfl

theorem plVal_eq_sqrt_mul_ptemp (x : ℝ) (l : ℕ) (hl : 1 ≤ l) :
    plVal x l = Real.sqrt (2 * (l : ℝ) + 1) * ptemp x l := by
  match l, hl with
  | 1, _ =>
      show Real.sqrt 3 * x = Real.sqrt (2 * ((1 : ℕ) : ℝ) + 1) * ptemp x 1
      norm_num [ptemp]
  | n + 2, _ =>
      show Real.sqrt (2 * ((n : ℝ) + 2) + 1) * ptemp x (n + 2) = _
      push_cast
      ring_nf

theorem ptemp_recurrence (x : ℝ) (l : ℕ) (hl : 2 ≤ l) :
    ptemp x l = ((2 * (l : ℝ) - 1) / (l : ℝ)) * x * ptemp x (l - 1)
      - (((l : ℝ) - 1) / (l : ℝ)) * ptemp x (l - 2) := by
  match l, hl with
  | n + 2, _ =>
      show ptemp x (n + 2) = _
      rw [ptemp]
      push_cast
      ring_nf

/-! ## Claim C5 -/

/-- C5 (counterexample): the claim states that negative `lmax` produces
empty output rather than failing; in fact `legendre_polynomials(-1, [0.0])`
raises an `IndexError` at the assignment `ptemp[0,:] = 1.0`, since the
allocated matrices have `0` rows. -/
theorem legendre_negative_lmax_raises :
    legendre_polynomials (-1) [(0 : ℝ)] =
      .error "IndexError: index 0 is out of bounds for axis 0 with size 0" := by
  rfl

/-- C5 (amended): for `lmax ≥ 1` both returned matrices have shape
`(lmax+1, len(x))`; for `lmax ≤ 0` the function raises (an `IndexError` for
`lmax ∈ {-1, 0}`, a `ValueError` for `lmax ≤ -2`) instead of returning. -/
theorem legendre_shapes (lmax : ℤ) (x : List ℝ) :
    (1 ≤ lmax →
      ∃ pl dpl, legendre_polynomials lmax x = .ok (pl, dpl) ∧
        pl.length = lmax.toNat + 1 ∧ dpl.length = lmax.toNat + 1 ∧
        (∀ row ∈ pl, row.length = x.length) ∧
        (∀ row ∈ dpl, row.length = x.length)) ∧
    (lmax ≤ 0 → ∃ e, legendre_polynomials lmax x = .error e) := by
  constructor
  · intro h
    have h0 : ¬ lmax + 1 < 0 := by omega
    have h1 : ¬ (lmax + 1).toNat = 0 := by omega
    have h2 : ¬ (lmax + 1).toNat = 1 := by omega
    have hr : (lmax + 1).toNat = lmax.toNat + 1 := by omega
    refine ⟨(List.range (lmax + 1).toNat).map fun l => x.map fun xi => plVal xi l,
      (List.range (lmax + 1).toNat).map fun l => x.map fun xi => dplVal xi l,
      ?_, ?_, ?_, ?_, ?_⟩
    · rw [legendre_polynomials, if_neg h0, if_neg h1, if_neg h2]
    · simp [hr]
    · simp [hr]
    · intro row hrow
      rcases List.mem_map.mp hrow with ⟨l, _, rfl⟩
      simp
    · intro row hrow
      rcases List.mem_map.mp hrow with ⟨l, _, rfl⟩
      simp
  · intro h
    by_cases h0 : lmax + 1 < 0
    · exact ⟨_, by rw [legendre_polynomials, if_pos h0]⟩
    · by_cases h1 : (lmax + 1).toNat = 0
      · exact ⟨_, by rw [legendre_polynomials, if_neg h0, if_pos h1]⟩
      · have h2 : (lmax + 1).toNat = 1 := by omega
        exact ⟨_, by rw [legendre_polynomials, if_neg h0, if_neg h1, if_pos h2]⟩

/-- C5 (witness): the amended shape statement at `lmax = 2`,
`x = [0, 1/2]`. -/
theorem legendre_shapes_witness :
    ∃ pl dpl, legendre_polynomials 2 [(0 : ℝ), 1/2] = .ok (pl, dpl) ∧
      pl.length = (2 : ℤ).toNat + 1 ∧ dpl.length = (2 : ℤ).toNat + 1 ∧
      (∀ row ∈ pl, row.length = [(0 : ℝ), 1/2].length) ∧
      (∀ row ∈ dpl, row.length = [(0 : ℝ), 1/2].length) :=
  (legendre_shapes 2 [(0 : ℝ), 1/2]).1 (by norm_num)

/-! ## Claim C4 -/

/-- C4 (counterexample): the claim quantifies over every `lmax ≥ 0`, but at
`lmax = 0` the source raises an `IndexError` at the assignment
`ptemp[1,:] = x` (the matrices have a single row), so no `pl` is returned
at all. -/
theorem legendre_lmax_zero_raises :
    legendre_polynomials 0 [(0 : ℝ)] =
      .error "IndexError: index 1 is out of bounds for axis 0 with size 1" := by
  rfl

/-- C4 (amended): for every `lmax ≥ 1` and scalar `x` in `(-1, 1)`,
`legendre_polynomials(lmax, x)` returns `pl` with `pl[0] = 1` and
`pl[1] = sqrt(3) * x`, exactly. -/
theorem legendre_pl0_pl1 (lmax : ℤ) (x : ℝ) (h : 1 ≤ lmax)
    (hx1 : -1 < x) (hx2 : x < 1) :
    ∃ pl dpl, legendre_polynomials lmax [x] = .ok (pl, dpl) ∧
      pl.getD 0 [] = [1] ∧ pl.getD 1 [] = [Real.sqrt 3 * x] := by
  have h0 : ¬ lmax + 1 < 0 := by omega
  have h1 : ¬ (lmax + 1).toNat = 0 := by omega
  have h2 : ¬ (lmax + 1).toNat = 1 := by omega
  refine ⟨(List.range (lmax + 1).toNat).map fun l => [x].map fun xi => plVal xi l,
    (List.range (lmax + 1).toNat).map fun l => [x].map fun xi => dplVal xi l,
    ?_, ?_, ?_⟩
  · rw [legendre_polynomials, if_neg h0, if_neg h1, if_neg h2]
  · rw [getD_range_map _ _ _ _ (by omega)]
    rfl
  · rw [getD_range_map _ _ _ _ (by omega)]
    rfl

/-- C4 (witness): the amended statement at `lmax = 2`, `x = 0`. -/
theorem legendre_pl0_pl1_witness :
    ∃ pl dpl, legendre_polynomials 2 [(0 : ℝ)] = .ok (pl, dpl) ∧
      pl.getD 0 [] = [1] ∧ pl.getD 1 [] = [Real.sqrt 3 * 0] :=
  legendre_pl0_pl1 2 0 (by norm_num) (by norm_num) (by norm_num)

/-! ## Claim C1 -/

/-- The elementwise characterization of `legendre_polynomials(lmax, x)`
asserted by C1: the call succeeds, `ptemp` satisfies the three-term
Legendre recurrence with `ptemp[0] = 1`, `ptemp[1] = x`; row `0` of `pl` is
identically `1`; row `l ≥ 1` of `pl` is `sqrt(2l+1) * ptemp[l]`; row `0` of
`dpl` stays zero; and row `l ≥ 1` of `dpl` is
`(1/sqrt(1-x²)) * (l*x*pl[l] - fl*pl[l-1])` with
`fl = sqrt(l²*(2l+1)/(2l-1))`, at every evaluation point. -/
def LegendreElementwise (lmax : ℤ) (x : List ℝ) : Prop :=
  ∃ pl dpl, legendre_polynomials lmax x = .ok (pl, dpl) ∧
    (∀ xi : ℝ, ptemp xi 0 = 1 ∧ ptemp xi 1 = xi) ∧
    (∀ xi : ℝ, ∀ l, 2 ≤ l → ptemp xi l =
      ((2 * (l : ℝ) - 1) / (l : ℝ)) * xi * ptemp xi (l - 1)
        - (((l : ℝ) - 1) / (l : ℝ)) * ptemp xi (l - 2)) ∧
    (∀ i < x.length, (pl.getD 0 []).getD i 0 = 1) ∧
    (∀ l, 1 ≤ l → l ≤ lmax.toNat → ∀ i < x.length,
      (pl.getD l []).getD i 0 =
        Real.sqrt (2 * (l : ℝ) + 1) * ptemp (x.getD i 0) l) ∧
    (∀ i < x.length, (dpl.getD 0 []).getD i 0 = 0) ∧
    (∀ l, 1 ≤ l → l ≤ lmax.toNat → ∀ i < x.length,
      (dpl.getD l []).getD i 0 =
        (1 / Real.sqrt (1 - (x.getD i 0) ^ 2)) *
          ((l : ℝ) * (x.getD i 0) * ((pl.getD l []).getD i 0)
            - Real.sqrt ((l : ℝ) ^ 2 * (2 * (l : ℝ) + 1) / (2 * (l : ℝ) - 1))
              * ((pl.getD (l - 1) []).getD i 0)))

/-- C1: for every `lmax ≥ 2` and every array of values in `(-1, 1)`, the
returned matrices satisfy, elementwise, exactly the normalized recurrence
and derivative formulas of the specification. -/
theorem legendre_polynomials_elementwise (lmax : ℤ) (x : List ℝ)
    (h2 : 2 ≤ lmax) (hx : ∀ xi ∈ x, -1 < xi ∧ xi < 1) :
    LegendreElementwise lmax x := by
  have h0 : ¬ lmax + 1 < 0 := by omega
  have h1 : ¬ (lmax + 1).toNat = 0 := by omega
  have h1' : ¬ (lmax + 1).toNat = 1 := by omega
  have hr : (lmax + 1).toNat = lmax.toNat + 1 := by omega
  refine ⟨(List.range (lmax + 1).toNat).map fun l => x.map fun xi => plVal xi l,
    (List.range (lmax + 1).toNat).map fun l => x.map fun xi => dplVal xi l,
    ?_, ?_, ?_, ?_, ?_, ?_, ?_⟩
  · rw [legendre_polynomials, if_neg h0, if_neg h1, if_neg h1']
  · exact fun xi => ⟨rfl, rfl⟩
  · exact fun xi l hl => ptemp_recurrence xi l hl
  · intro i hi
    rw [getD_range_map _ _ _ _ (by omega),
      getD_map_of_lt (fun xi => plVal xi 0) x i 0 0 hi]
    rfl
  · intro l hl1 hl2 i hi
    rw [getD_range_map _ _ _ _ (by omega),
      getD_map_of_lt (fun xi => plVal xi l) x i 0 0 hi]
    exact plVal_eq_sqrt_mul_ptemp _ l hl1
  · intro i hi
    rw [getD_range_map _ _ _ _ (by omega),
      getD_map_of_lt (fun xi => dplVal xi 0) x i 0 0 hi]
    rfl
  · intro l hl1 hl2 i hi
    obtain ⟨n, rfl⟩ : ∃ n, l = n + 1 := ⟨l - 1, by omega⟩
    rw [getD_range_map _ _ _ _ (by omega),
      getD_map_of_lt (fun xi => dplVal xi (n + 1)) x i 0 0 hi,
      getD_range_map _ _ _ _ (by omega),
      getD_map_of_lt (fun xi => plVal xi (n + 1)) x i 0 0 hi]
    have hs : n + 1 - 1 = n := by omega
    rw [hs, getD_range_map _ _ _ _ (by omega),
      getD_map_of_lt (fun xi => plVal xi n) x i 0 0 hi]
    show dplVal (x.getD i 0) (n + 1) = _
    rw [dplVal, fl]
    push_cast
    ring_nf

/-- C1 (witness): the elementwise characterization at `lmax = 2`,
`x = [0, 1/2]`. -/
theorem legendre_polynomials_elementwise_witness :
    LegendreElementwise 2 [(0 : ℝ), 1/2] :=
  legendre_polynomials_elementwise 2 [(0 : ℝ), 1/2] (by norm_num)
    (by intro xi hxi; simp at hxi; rcases hxi with rfl | rfl <;> norm_num)

/-! ## Gravity model reader: `read_ICGEM_harmonics.py`

The file contents are embedded structurally: `GfcFile` holds the seven
header fields after the header-extraction loop (with `max_degree`,
`earth_gravity_constant` and `radius` already taken through their
`np.int` / `np.float` conversions) and the data lines after whitespace
tokenization and numeric conversion of their fields.  The external
collaborator `calculate_tidal_offset` is passed in as a function
parameter. -/

/-- Split a character list at the first occurrence of `sep`: returns the
part before the occurrence and the part after it, or `none` when `sep`
does not occur.  This is the search primitive behind the Python substring
tests (`'SW_' in model_file`) and the filename decomposition. -/
def splitFirst (sep : List Char) : List Char → Option (List Char × List Char)
  | [] => if sep = [] then some ([], []) else none
  | c :: cs =>
    if sep.isPrefixOf (c :: cs) then some ([], (c :: cs).drop sep.length)
    else
      match splitFirst sep cs with
      | some (pre, post) => some (c :: pre, post)
      | none => none

/-- Python's substring containment test `sep in s`. -/
def containsSub (sep s : List Char) : Bool := (splitFirst sep s).isSome

/-- A numpy square matrix allocated by `np.zeros((LMAX+1, LMAX+1))`:
its row/column count and its entries. -/
structure Mat where
  dim : ℕ
  entry : ℕ → ℕ → ℚ

/-- `np.zeros((n, n))`. -/
def matZero (n : ℕ) : Mat := ⟨n, fun _ _ => 0⟩

/-- Indexed assignment `A[i, j] = v`. -/
def Mat.write (A : Mat) (i j : ℕ) (v : ℚ) : Mat :=
  ⟨A.dim, fun l m => if l = i ∧ m = j then v else A.entry l m⟩

/-- One data line of the gfc file after tokenization: fields `[1]`–`[6]`
(`l1`, `m1`, the C and S coefficients, and — when the line carries them —
the C and S error columns read for non-SWARM files). -/
structure DataLine where
  l1 : ℕ
  m1 : ℕ
  c : ℚ
  s : ℚ
  ec : ℚ
  es : ℚ

/-- A gfc model file after header extraction and data tokenization. -/
structure GfcFile where
  modelname : String
  earth_gravity_constant : ℚ
  radius : ℚ
  max_degree : ℕ
  errors : String
  norm : String
  tide_system : String
  data : List DataLine

/-- The three filename-derived temporal fields stored for the
GRAZ/SWARM/COST-G formats (`time`, `start`, `end`). -/
structure TimeMeta where
  time : ℚ
  start : ℚ
  end_ : ℚ

/-- The dictionary returned by `read_ICGEM_harmonics`: the error matrices
are absent (`none`) for the SWARM format, and the temporal fields are
absent for the plain ICGEM format. -/
structure ModelRecord where
  clm : Mat
  slm : Mat
  eclm : Option Mat
  eslm : Option Mat
  modelname : String
  earth_gravity_constant : ℚ
  radius : ℚ
  max_degree : ℕ
  errors : String
  norm : String
  tide_system : String
  time : Option ℚ
  start : Option ℚ
  end_ : Option ℚ

/-- The effective truncation degree:
`LMAX = np.int(model_input['max_degree']) if not LMAX else LMAX`.
Python's `not LMAX` is true both for `None` and for `0`, so a
caller-supplied `0` falls back to the header-declared degree. -/
def effLMAX (file : GfcFile) (LMAX : Option ℕ) : ℕ :=
  match LMAX with
  | none => file.max_degree
  | some k => if k = 0 then file.max_degree else k

/-- The four coefficient matrices carried through the data loop.  When the
path marks a SWARM file the source never allocates `eclm`/`eslm`; here the
two dummy matrices are simply never written and are dropped from the
returned record. -/
structure Mats where
  clm : Mat
  slm : Mat
  eclm : Mat
  eslm : Mat

/-- One iteration of the data loop: if degree and order are below the
truncation limits, write the four (two, for SWARM) coefficients at
`[l1, m1]`; otherwise the line is discarded. -/
def dataStep (isSW : Bool) (lmax : ℕ) (ms : Mats) (d : DataLine) : Mats :=
  if d.l1 ≤ lmax ∧ d.m1 ≤ lmax then
    { clm := ms.clm.write d.l1 d.m1 d.c,
      slm := ms.slm.write d.l1 d.m1 d.s,
      eclm := if isSW then ms.eclm else ms.eclm.write d.l1 d.m1 d.ec,
      eslm := if isSW then ms.eslm else ms.eslm.write d.l1 d.m1 d.es }
  else ms

/-- The matrices after the whole data loop, starting from
`np.zeros((LMAX+1, LMAX+1))`. -/
def parsedMats (isSW : Bool) (lmax : ℕ) (data : List DataLine) : Mats :=
  data.foldl (dataStep isSW lmax)
    ⟨matZero (lmax + 1), matZero (lmax + 1), matZero (lmax + 1), matZero (lmax + 1)⟩

/-- The model record as it stands right before the tide-correction block:
parsed matrices (`eclm`/`eslm` only when `'SW_' not in model_file`), the
seven header fields, and the temporal fields when the dispatch produced
them. -/
def baseRecord (model_file : String) (file : GfcFile) (LMAX : Option ℕ)
    (tm : Option TimeMeta) : ModelRecord :=
  let lmax := effLMAX file LMAX
  let isSW := containsSub "SW_".toList model_file.toList
  let ms := parsedMats isSW lmax file.data
  { clm := ms.clm
    slm := ms.slm
    eclm := if isSW then none else some ms.eclm
    eslm := if isSW then none else some ms.eslm
    modelname := file.modelname
    earth_gravity_constant := file.earth_gravity_constant
    radius := file.radius
    max_degree := file.max_degree
    errors := file.errors
    norm := file.norm
    tide_system := file.tide_system
    time := tm.map TimeMeta.time
    start := tm.map TimeMeta.start
    end_ := tm.map TimeMeta.end_ }

/-- The reader from the header-extraction point on: allocate and fill the
matrices, then apply the tide correction.  `model_input['clm'][2,0] += ...`
raises an `IndexError` when the allocated matrices have fewer than three
rows, i.e. when the effective truncation degree is below 2. -/
def read_core (model_file : String) (file : GfcFile) (LMAX : Option ℕ)
    (TIDE : String) (calculate_tidal_offset : String → ℚ → ℚ → String → ℚ)
    (tm : Option TimeMeta) : Except String ModelRecord :=
  if TIDE = "mean_tide" ∨ TIDE = "zero_tide" then
    if 2 < effLMAX file LMAX + 1 then
      .ok { baseRecord model_file file LMAX tm with
            tide_system := TIDE
            clm := (baseRecord model_file file LMAX tm).clm.write 2 0
              ((baseRecord model_file file LMAX tm).clm.entry 2 0 +
                calculate_tidal_offset TIDE file.earth_gravity_constant
                  file.radius "WGS84") }
    else .error "IndexError: index 2 is out of bounds for axis 0"
  else .ok (baseRecord model_file file LMAX tm)

/-! ### Reader helper lemmas -/

theorem Mat.write_entry (A : Mat) (i j : ℕ) (v : ℚ) (l m : ℕ) :
    (A.write i j v).entry l m = if l = i ∧ m = j then v else A.entry l m := rfl

theorem baseRecord_clm (model_file : String) (file : GfcFile) (LMAX : Option ℕ)
    (tm : Option TimeMeta) :
    (baseRecord model_file file LMAX tm).clm =
      (parsedMats (containsSub "SW_".toList model_file.toList)
        (effLMAX file LMAX) file.data).clm := rfl

theorem baseRecord_slm (model_file : String) (file : GfcFile) (LMAX : Option ℕ)
    (tm : Option TimeMeta) :
    (baseRecord model_file file LMAX tm).slm =
      (parsedMats (containsSub "SW_".toList model_file.toList)
        (effLMAX file LMAX) file.data).slm := rfl

theorem baseRecord_eclm (model_file : String) (file : GfcFile) (LMAX : Option ℕ)
    (tm : Option TimeMeta) :
    (baseRecord model_file file LMAX tm).eclm =
      if containsSub "SW_".toList model_file.toList then none
      else some ((parsedMats (containsSub "SW_".toList model_file.toList)
        (effLMAX file LMAX) file.data).eclm) := rfl

theorem baseRecord_eslm (model_file : String) (file : GfcFile) (LMAX : Option ℕ)
    (tm : Option TimeMeta) :
    (baseRecord model_file file LMAX tm).eslm =
      if containsSub "SW_".toList model_file.toList then none
      else some ((parsedMats (containsSub "SW_".toList model_file.toList)
        (effLMAX file LMAX) file.data).eslm) := rfl

theorem dataStep_dims (isSW : Bool) (lmax : ℕ) (ms : Mats) (d : DataLine) :
    (dataStep isSW lmax ms d).clm.dim = ms.clm.dim ∧
    (dataStep isSW lmax ms d).slm.dim = ms.slm.dim ∧
    (dataStep isSW lmax ms d).eclm.dim = ms.eclm.dim ∧
    (dataStep isSW lmax ms d).eslm.dim = ms.eslm.dim := by
  unfold dataStep
  split
  · refine ⟨rfl, rfl, ?_, ?_⟩ <;> (cases isSW <;> rfl)
  · exact ⟨rfl, rfl, rfl, rfl⟩

theorem foldl_dataStep_dims (isSW : Bool) (lmax : ℕ) :
    ∀ (data : List DataLine) (ms : Mats),
      (data.foldl (dataStep isSW lmax) ms).clm.dim = ms.clm.dim ∧
      (data.foldl (dataStep isSW lmax) ms).slm.dim = ms.slm.dim ∧
      (data.foldl (dataStep isSW lmax) ms).eclm.dim = ms.eclm.dim ∧
      (data.foldl (dataStep isSW lmax) ms).eslm.dim = ms.eslm.dim
  | [], ms => ⟨rfl, rfl, rfl, rfl⟩
  | d :: ds, ms => by
      have ih := foldl_dataStep_dims isSW lmax ds (dataStep isSW lmax ms d)
      have hd := dataStep_dims isSW lmax ms d
      exact ⟨ih.1.trans hd.1, ih.2.1.trans hd.2.1,
        ih.2.2.1.trans hd.2.2.1, ih.2.2.2.trans hd.2.2.2⟩

theorem parsedMats_dims (isSW : Bool) (lmax : ℕ) (data : List DataLine) :
    (parsedMats isSW lmax data).clm.dim = lmax + 1 ∧
    (parsedMats isSW lmax data).slm.dim = lmax + 1 ∧
    (parsedMats isSW lmax data).eclm.dim = lmax + 1 ∧
    (parsedMats isSW lmax data).eslm.dim = lmax + 1 :=
  foldl_dataStep_dims isSW lmax data _

/-- Invariant for truncation: every entry whose degree or order exceeds `k`
is zero in all four matrices. -/
def HighZero (k : ℕ) (ms : Mats) : Prop :=
  ∀ l m, k < l ∨ k < m →
    ms.clm.entry l m = 0 ∧ ms.slm.entry l m = 0 ∧
    ms.eclm.entry l m = 0 ∧ ms.eslm.entry l m = 0

theorem dataStep_highZero (isSW : Bool) (lmax : ℕ) (ms : Mats) (d : DataLine)
    (h : HighZero lmax ms) : HighZero lmax (dataStep isSW lmax ms d) := by
  intro l m hlm
  unfold dataStep
  split
  next hcond =>
    have hne : ¬(l = d.l1 ∧ m = d.m1) := by
      rintro ⟨rfl, rfl⟩
      rcases hlm with h1 | h1
      · exact absurd hcond.1 (by omega)
      · exact absurd hcond.2 (by omega)
    refine ⟨?_, ?_, ?_, ?_⟩
    · rw [show (⟨ms.clm.write d.l1 d.m1 d.c, ms.slm.write d.l1 d.m1 d.s,
        if isSW then ms.eclm else ms.eclm.write d.l1 d.m1 d.ec,
        if isSW then ms.eslm else ms.eslm.write d.l1 d.m1 d.es⟩ : Mats).clm
          = ms.clm.write d.l1 d.m1 d.c from rfl, Mat.write_entry, if_neg hne]
      exact (h l m hlm).1
    · rw [show (⟨ms.clm.write d.l1 d.m1 d.c, ms.slm.write d.l1 d.m1 d.s,
        if isSW then ms.eclm else ms.eclm.write d.l1 d.m1 d.ec,
        if isSW then ms.eslm else ms.eslm.write d.l1 d.m1 d.es⟩ : Mats).slm
          = ms.slm.write d.l1 d.m1 d.s from rfl, Mat.write_entry, if_neg hne]
      exact (h l m hlm).2.1
    · show (if isSW then ms.eclm else ms.eclm.write d.l1 d.m1 d.ec).entry l m = 0
      cases isSW
      · rw [if_neg (by simp), Mat.write_entry, if_neg hne]
        exact (h l m hlm).2.2.1
      · rw [if_pos rfl]
        exact (h l m hlm).2.2.1
    · show (if isSW then ms.eslm else ms.eslm.write d.l1 d.m1 d.es).entry l m = 0
      cases isSW
      · rw [if_neg (by simp), Mat.write_entry, if_neg hne]
        exact (h l m hlm).2.2.2
      · rw [if_pos rfl]
        exact (h l m hlm).2.2.2
  next => exact h l m hlm

theorem foldl_highZero (isSW : Bool) (lmax : ℕ) :
    ∀ (data : List DataLine) (ms : Mats), HighZero lmax ms →
      HighZero lmax (data.foldl (dataStep isSW lmax) ms)
  | [], _, h => h
  | d :: ds, ms, h =>
      foldl_highZero isSW lmax ds _ (dataStep_highZero isSW lmax ms d h)

theorem parsedMats_highZero (isSW : Bool) (lmax : ℕ) (data : List DataLine) :
    HighZero lmax (parsedMats isSW lmax data) :=
  foldl_highZero isSW lmax data _ (fun _ _ _ => ⟨rfl, rfl, rfl, rfl⟩)

/-- Invariant for lower-triangularity: every entry above the diagonal is
zero in all four matrices. -/
def UpperZero (ms : Mats) : Prop :=
  ∀ l m, l < m →
    ms.clm.entry l m = 0 ∧ ms.slm.entry l m = 0 ∧
    ms.eclm.entry l m = 0 ∧ ms.eslm.entry l m = 0

theorem dataStep_upperZero (isSW : Bool) (lmax : ℕ) (ms : Mats) (d : DataLine)
    (hd : d.m1 ≤ d.l1) (h : UpperZero ms) : UpperZero (dataStep isSW lmax ms d) := by
  intro l m hlm
  unfold dataStep
  split
  next hcond =>
    have hne : ¬(l = d.l1 ∧ m = d.m1) := by
      rintro ⟨rfl, rfl⟩
      omega
    refine ⟨?_, ?_, ?_, ?_⟩
    · rw [show (⟨ms.clm.write d.l1 d.m1 d.c, ms.slm.write d.l1 d.m1 d.s,
        if isSW then ms.eclm else ms.eclm.write d.l1 d.m1 d.ec,
        if isSW then ms.eslm else ms.eslm.write d.l1 d.m1 d.es⟩ : Mats).clm
          = ms.clm.write d.l1 d.m1 d.c from rfl, Mat.write_entry, if_neg hne]
      exact (h l m hlm).1
    · rw [show (⟨ms.clm.write d.l1 d.m1 d.c, ms.slm.write d.l1 d.m1 d.s,
        if isSW then ms.eclm else ms.eclm.write d.l1 d.m1 d.ec,
        if isSW then ms.eslm else ms.eslm.write d.l1 d.m1 d.es⟩ : Mats).slm
          = ms.slm.write d.l1 d.m1 d.s from rfl, Mat.write_entry, if_neg hne]
      exact (h l m hlm).2.1
    · show (if isSW then ms.eclm else ms.eclm.write d.l1 d.m1 d.ec).entry l m = 0
      cases isSW
      · rw [if_neg (by simp), Mat.write_entry, if_neg hne]
        exact (h l m hlm).2.2.1
      · rw [if_pos rfl]
        exact (h l m hlm).2.2.1
    · show (if isSW then ms.eslm else ms.eslm.write d.l1 d.m1 d.es).entry l m = 0
      cases isSW
      · rw [if_neg (by simp), Mat.write_entry, if_neg hne]
        exact (h l m hlm).2.2.2
      · rw [if_pos rfl]
        exact (h l m hlm).2.2.2
  next => exact h l m hlm

theorem foldl_upperZero (isSW : Bool) (lmax : ℕ) :
    ∀ (data : List DataLine) (ms : Mats),
      (∀ d ∈ data, d.m1 ≤ d.l1) → UpperZero ms →
      UpperZero (data.foldl (dataStep isSW lmax) ms)
  | [], _, _, h => h
  | d :: ds, ms, hd, h =>
      foldl_upperZero isSW lmax ds _ (fun e he => hd e (List.mem_cons_of_mem d he))
        (dataStep_upperZero isSW lmax ms d (hd d (List.mem_cons_self d ds)) h)

theorem parsedMats_upperZero (isSW : Bool) (lmax : ℕ) (data : List DataLine)
    (hd : ∀ d ∈ data, d.m1 ≤ d.l1) : UpperZero (parsedMats isSW lmax data) :=
  foldl_upperZero isSW lmax data _ hd (fun _ _ _ => ⟨rfl, rfl, rfl, rfl⟩)

/-! ### Concrete inputs used as counterexamples and witnesses -/

/-- A constant stand-in for the external `calculate_tidal_offset`
collaborator. -/
def constOffset7 : String → ℚ → ℚ → String → ℚ := fun _ _ _ _ => 7

/-- Data lines of a small well-formed degree-3 model. -/
def sampleLines : List DataLine :=
  [⟨0, 0, 1, 0, 0, 0⟩, ⟨2, 0, 1/2, 0, 1/100, 1/100⟩,
   ⟨3, 1, 3/4, 1/4, 0, 0⟩, ⟨3, 3, 1, 1, 0, 0⟩]

/-- A well-formed model file with header-declared `max_degree` 3. -/
def fileD3 : GfcFile :=
  { modelname := "TestModel"
    earth_gravity_constant := 398600441500000
    radius := 6378136
    max_degree := 3
    errors := "formal"
    norm := "fully_normalized"
    tide_system := "tide_free"
    data := sampleLines }

/-- A model file with header-declared `max_degree` 1 (too small for the
tide-correction write at `[2, 0]`). -/
def fileD1 : GfcFile :=
  { modelname := "SmallModel"
    earth_gravity_constant := 1
    radius := 1
    max_degree := 1
    errors := "formal"
    norm := "fully_normalized"
    tide_system := "tide_free"
    data := [⟨1, 0, 1/2, 0, 0, 0⟩] }

/-- A model file containing a data line whose order exceeds its degree
(`l1 = 1`, `m1 = 2`). -/
def fileBadLine : GfcFile :=
  { modelname := "BadModel"
    earth_gravity_constant := 1
    radius := 1
    max_degree := 2
    errors := "formal"
    norm := "fully_normalized"
    tide_system := "tide_free"
    data := [⟨1, 2, 5, 0, 0, 0⟩] }

/-! ## Claim C9 -/

/-- C9: for every model file with effective truncation degree below 2,
requesting `mean_tide` or `zero_tide` makes the reader fail with an
out-of-bounds index error when updating `C(2,0)` instead of returning a
record. -/
theorem tide_small_degree_index_error (model_file : String) (file : GfcFile)
    (LMAX : Option ℕ) (TIDE : String)
    (off : String → ℚ → ℚ → String → ℚ) (tm : Option TimeMeta)
    (hdeg : effLMAX file LMAX < 2)
    (hT : TIDE = "mean_tide" ∨ TIDE = "zero_tide") :
    read_core model_file file LMAX TIDE off tm =
      .error "IndexError: index 2 is out of bounds for axis 0" := by
  rw [read_core, if_pos hT, if_neg (by omega)]

/-- C9 (witness): the degree-1 file read with `mean_tide` raises. -/
theorem tide_small_degree_index_error_witness :
    read_core "EGM_small.gfc" fileD1 none "mean_tide" constOffset7 none =
      .error "IndexError: index 2 is out of bounds for axis 0" :=
  tide_small_degree_index_error "EGM_small.gfc" fileD1 none "mean_tide"
    constOffset7 none (by decide) (Or.inl rfl)

/-! ## Claim C6 -/

/-- C6 (counterexample): the claim quantifies over every model file, but on
a file whose effective truncation degree is below 2 a non-default tide
request raises an `IndexError` instead of returning a record with one
changed entry. -/
theorem zero_tide_small_degree_raises :
    read_core "LOW_degree.gfc" fileD1 none "zero_tide" constOffset7 none =
      .error "IndexError: index 2 is out of bounds for axis 0" := by
  rfl

/-- The frame property of the tide correction asserted by C6: reading with
`tide_free` returns the record exactly as parsed, while reading with the
requested non-default tide system differs from it in exactly the `C(2,0)`
entry — by precisely the collaborator's offset, called with the requested
tide, the model GM, the model radius and `'WGS84'` — and in the
`tide_system` field. -/
def TideFrame (model_file : String) (file : GfcFile) (LMAX : Option ℕ)
    (TIDE : String) (off : String → ℚ → ℚ → String → ℚ)
    (tm : Option TimeMeta) : Prop :=
  ∃ r0 r1,
    read_core model_file file LMAX "tide_free" off tm = .ok r0 ∧
    read_core model_file file LMAX TIDE off tm = .ok r1 ∧
    r0 = baseRecord model_file file LMAX tm ∧
    r0.tide_system = file.tide_system ∧
    r1.clm.entry 2 0 = r0.clm.entry 2 0 +
      off TIDE file.earth_gravity_constant file.radius "WGS84" ∧
    (∀ l m, ¬(l = 2 ∧ m = 0) → r1.clm.entry l m = r0.clm.entry l m) ∧
    r1.clm.dim = r0.clm.dim ∧
    r1.slm = r0.slm ∧ r1.eclm = r0.eclm ∧ r1.eslm = r0.eslm ∧
    r1.tide_system = TIDE ∧
    r1.modelname = r0.modelname ∧
    r1.earth_gravity_constant = r0.earth_gravity_constant ∧
    r1.radius = r0.radius ∧ r1.max_degree = r0.max_degree ∧
    r1.errors = r0.errors ∧ r1.norm = r0.norm ∧
    r1.time = r0.time ∧ r1.start = r0.start ∧ r1.end_ = r0.end_

/-- C6 (amended): the frame property holds for every model file whose
effective truncation degree is at least 2 (below that the non-default tide
request raises, as claim C9 records). -/
theorem tide_correction_frame (model_file : String) (file : GfcFile)
    (LMAX : Option ℕ) (TIDE : String) (off : String → ℚ → ℚ → String → ℚ)
    (tm : Option TimeMeta) (hdeg : 2 ≤ effLMAX file LMAX)
    (hT : TIDE = "mean_tide" ∨ TIDE = "zero_tide") :
    TideFrame model_file file LMAX TIDE off tm := by
  have h1 : read_core model_file file LMAX "tide_free" off tm =
      .ok (baseRecord model_file file LMAX tm) := by
    rw [read_core, if_neg (by decide)]
  have h2 : read_core model_file file LMAX TIDE off tm =
      .ok { baseRecord model_file file LMAX tm with
            tide_system := TIDE
            clm := (baseRecord model_file file LMAX tm).clm.write 2 0
              ((baseRecord model_file file LMAX tm).clm.entry 2 0 +
                off TIDE file.earth_gravity_constant file.radius "WGS84") } := by
    rw [read_core, if_pos hT, if_pos (by omega)]
  refine ⟨_, _, h1, h2, rfl, rfl, ?_, ?_, rfl, rfl, rfl, rfl, rfl, rfl, rfl,
    rfl, rfl, rfl, rfl, rfl, rfl, rfl⟩
  · show (Mat.write _ 2 0 _).entry 2 0 = _
    rw [Mat.write_entry, if_pos ⟨rfl, rfl⟩]
  · intro l m hne
    show (Mat.write _ 2 0 _).entry l m = _
    rw [Mat.write_entry, if_neg hne]

/-- C6 (witness): the frame property at the degree-3 file with
`mean_tide`. -/
theorem tide_correction_frame_witness :
    TideFrame "EGM_test.gfc" fileD3 none "mean_tide" constOffset7 none :=
  tide_correction_frame "EGM_test.gfc" fileD3 none "mean_tide" constOffset7
    none (by decide) (Or.inl rfl)

/-! ## Claim C3 -/

/-- C3 (counterexample): reading the degree-3 file with a caller-supplied
truncation of `0` does not truncate to degree 0: Python's `not LMAX` is
true for `0`, so the header degree 3 is used and the matrices come back
`4 × 4`, not `1 × 1`. -/
theorem lmax_zero_falls_back_to_header :
    ∃ r, read_core "EGM_test.gfc" fileD3 (some 0) "tide_free" constOffset7 none =
      .ok r ∧ r.clm.dim = 4 ∧ ¬ r.clm.dim = 0 + 1 := by
  refine ⟨_, rfl, rfl, by decide⟩

/-- The truncation property asserted by C3, restricted to `k ≥ 1`: reading
with `lmax = k` yields matrices of shape `(k+1, k+1)` whose entries beyond
degree/order `k` are never written, and reading with `lmax = None` uses the
header-declared degree. -/
def Truncation (model_file : String) (file : GfcFile) (k : ℕ)
    (off : String → ℚ → ℚ → String → ℚ) (tm : Option TimeMeta) : Prop :=
  ∃ r, read_core model_file file (some k) "tide_free" off tm = .ok r ∧
    r.clm.dim = k + 1 ∧ r.slm.dim = k + 1 ∧
    (∀ e, r.eclm = some e → e.dim = k + 1) ∧
    (∀ e, r.eslm = some e → e.dim = k + 1) ∧
    (∀ l m, k < l ∨ k < m →
      r.clm.entry l m = 0 ∧ r.slm.entry l m = 0 ∧
      (∀ e, r.eclm = some e → e.entry l m = 0) ∧
      (∀ e, r.eslm = some e → e.entry l m = 0)) ∧
    (∃ r2, read_core model_file file none "tide_free" off tm = .ok r2 ∧
      r2.clm.dim = file.max_degree + 1)

/-- C3 (amended): for every caller-supplied truncation `k` with
`1 ≤ k < D`, `k` is the effective truncation degree; a caller-supplied `0`
is falsy in Python and falls back to the header degree, and `lmax = None`
uses the header degree. -/
theorem truncation_positive_lmax (model_file : String) (file : GfcFile)
    (k : ℕ) (off : String → ℚ → ℚ → String → ℚ) (tm : Option TimeMeta)
    (hk : 1 ≤ k) (hkD : k < file.max_degree) :
    Truncation model_file file k off tm := by
  have heff : effLMAX file (some k) = k := by
    show (if k = 0 then file.max_degree else k) = k
    rw [if_neg (by omega)]
  have hok : read_core model_file file (some k) "tide_free" off tm =
      .ok (baseRecord model_file file (some k) tm) := by
    rw [read_core, if_neg (by decide)]
  have hdims := parsedMats_dims (containsSub "SW_".toList model_file.toList)
    (effLMAX file (some k)) file.data
  have hhz := parsedMats_highZero (containsSub "SW_".toList model_file.toList)
    (effLMAX file (some k)) file.data
  refine ⟨_, hok, ?_, ?_, ?_, ?_, ?_, ?_⟩
  · rw [baseRecord_clm, hdims.1, heff]
  · rw [baseRecord_slm, hdims.2.1, heff]
  · intro e he
    rw [baseRecord_eclm] at he
    by_cases hSW : containsSub "SW_".toList model_file.toList
    · rw [if_pos hSW] at he
      exact absurd he (by simp)
    · rw [if_neg hSW] at he
      cases Option.some.inj he
      rw [hdims.2.2.1, heff]
  · intro e he
    rw [baseRecord_eslm] at he
    by_cases hSW : containsSub "SW_".toList model_file.toList
    · rw [if_pos hSW] at he
      exact absurd he (by simp)
    · rw [if_neg hSW] at he
      cases Option.some.inj he
      rw [hdims.2.2.2, heff]
  · intro l m hlm
    have hlm' : effLMAX file (some k) < l ∨ effLMAX file (some k) < m := by
      rw [heff]
      exact hlm
    refine ⟨(hhz l m hlm').1, (hhz l m hlm').2.1, ?_, ?_⟩
    · intro e he
      rw [baseRecord_eclm] at he
      by_cases hSW : containsSub "SW_".toList model_file.toList
      · rw [if_pos hSW] at he
        exact absurd he (by simp)
      · rw [if_neg hSW] at he
        cases Option.some.inj he
        exact (hhz l m hlm').2.2.1
    · intro e he
      rw [baseRecord_eslm] at he
      by_cases hSW : containsSub "SW_".toList model_file.toList
      · rw [if_pos hSW] at he
        exact absurd he (by simp)
      · rw [if_neg hSW] at he
        cases Option.some.inj he
        exact (hhz l m hlm').2.2.2
  · refine ⟨baseRecord model_file file none tm, ?_, ?_⟩
    · rw [read_core, if_neg (by decide)]
    · rw [baseRecord_clm]
      exact (parsedMats_dims _ _ _).1

/-- C3 (witness): the truncation property at `k = 1` on the degree-3
file. -/
theorem truncation_positive_lmax_witness :
    Truncation "EGM_test.gfc" fileD3 1 constOffset7 none :=
  truncation_positive_lmax "EGM_test.gfc" fileD3 1 constOffset7 none
    (by decide) (by decide)

/-! ## Claim C7 -/

/-- C7 (counterexample): the data loop checks only `l1 ≤ LMAX` and
`m1 ≤ LMAX`, never `m1 ≤ l1`, so a data line with degree 1 and order 2
writes its coefficient above the diagonal: the returned matrix has
`clm[1, 2] = 5 ≠ 0`. -/
theorem order_above_degree_writes_above_diagonal :
    ∃ r, read_core "BAD_line.gfc" fileBadLine none "tide_free" constOffset7 none =
      .ok r ∧ r.clm.entry 1 2 = 5 ∧ ¬ r.clm.entry 1 2 = 0 := by
  refine ⟨_, rfl, rfl, by decide⟩

theorem baseRecord_eclm_some (model_file : String) (file : GfcFile)
    (LMAX : Option ℕ) (tm : Option TimeMeta) (e : Mat)
    (he : (baseRecord model_file file LMAX tm).eclm = some e) :
    e = (parsedMats (containsSub "SW_".toList model_file.toList)
      (effLMAX file LMAX) file.data).eclm := by
  rw [baseRecord_eclm] at he
  by_cases hSW : containsSub "SW_".toList model_file.toList
  · rw [if_pos hSW] at he
    exact absurd he (by simp)
  · rw [if_neg hSW] at he
    exact (Option.some.inj he).symm

theorem baseRecord_eslm_some (model_file : String) (file : GfcFile)
    (LMAX : Option ℕ) (tm : Option TimeMeta) (e : Mat)
    (he : (baseRecord model_file file LMAX tm).eslm = some e) :
    e = (parsedMats (containsSub "SW_".toList model_file.toList)
      (effLMAX file LMAX) file.data).eslm := by
  rw [baseRecord_eslm] at he
  by_cases hSW : containsSub "SW_".toList model_file.toList
  · rw [if_pos hSW] at he
    exact absurd he (by simp)
  · rw [if_neg hSW] at he
    exact (Option.some.inj he).symm

/-- C7 (amended): for every input file whose data lines all satisfy
`order ≤ degree`, every returned record has lower-triangular matrices —
every entry with order above degree is zero in `clm`, `slm`, and in
`eclm`/`eslm` when present.  (Without that well-formedness condition the
loop does write above the diagonal, as the counterexample shows.) -/
theorem lower_triangular_of_wellformed (model_file : String) (file : GfcFile)
    (LMAX : Option ℕ) (TIDE : String) (off : String → ℚ → ℚ → String → ℚ)
    (tm : Option TimeMeta) (r : ModelRecord)
    (hd : ∀ d ∈ file.data, d.m1 ≤ d.l1)
    (hok : read_core model_file file LMAX TIDE off tm = .ok r) :
    ∀ l m, l < m →
      r.clm.entry l m = 0 ∧ r.slm.entry l m = 0 ∧
      (∀ e, r.eclm = some e → e.entry l m = 0) ∧
      (∀ e, r.eslm = some e → e.entry l m = 0) := by
  have huz := parsedMats_upperZero (containsSub "SW_".toList model_file.toList)
    (effLMAX file LMAX) file.data hd
  rw [read_core] at hok
  split at hok
  · split at hok
    · cases hok
      intro l m hlm
      refine ⟨?_, (huz l m hlm).2.1, ?_, ?_⟩
      · show (Mat.write _ 2 0 _).entry l m = 0
        rw [Mat.write_entry, if_neg (by rintro ⟨rfl, rfl⟩; omega)]
        exact (huz l m hlm).1
      · intro e he
        rw [baseRecord_eclm_some model_file file LMAX tm e he]
        exact (huz l m hlm).2.2.1
      · intro e he
        rw [baseRecord_eslm_some model_file file LMAX tm e he]
        exact (huz l m hlm).2.2.2
    · exact absurd hok (by simp)
  · cases hok
    intro l m hlm
    refine ⟨(huz l m hlm).1, (huz l m hlm).2.1, ?_, ?_⟩
    · intro e he
      rw [baseRecord_eclm_some model_file file LMAX tm e he]
      exact (huz l m hlm).2.2.1
    · intro e he
      rw [baseRecord_eslm_some model_file file LMAX tm e he]
      exact (huz l m hlm).2.2.2

/-- C7 (witness): lower-triangularity of the record read from the
well-formed degree-3 file. -/
theorem lower_triangular_witness :
    ∃ r, read_core "EGM_test.gfc" fileD3 none "tide_free" constOffset7 none =
      .ok r ∧
      ∀ l m, l < m →
        r.clm.entry l m = 0 ∧ r.slm.entry l m = 0 ∧
        (∀ e, r.eclm = some e → e.entry l m = 0) ∧
        (∀ e, r.eslm = some e → e.entry l m = 0) :=
  ⟨_, rfl, lower_triangular_of_wellformed "EGM_test.gfc" fileD3 none
    "tide_free" constOffset7 none _ (by decide) rfl⟩

/-! ## Claim C8 -/

theorem baseRecord_swarm (model_file : String) (file : GfcFile)
    (LMAX : Option ℕ) (tm : Option TimeMeta) :
    (containsSub "SW_".toList model_file.toList = true →
      (baseRecord model_file file LMAX tm).eclm = none ∧
      (baseRecord model_file file LMAX tm).eslm = none) ∧
    (containsSub "SW_".toList model_file.toList = false →
      ∃ e1 e2, (baseRecord model_file file LMAX tm).eclm = some e1 ∧
        (baseRecord model_file file LMAX tm).eslm = some e2 ∧
        e1.dim = (baseRecord model_file file LMAX tm).clm.dim ∧
        e2.dim = (baseRecord model_file file LMAX tm).clm.dim ∧
        (baseRecord model_file file LMAX tm).slm.dim =
          (baseRecord model_file file LMAX tm).clm.dim) := by
  have hdims := parsedMats_dims (containsSub "SW_".toList model_file.toList)
    (effLMAX file LMAX) file.data
  constructor
  · intro h
    rw [baseRecord_eclm, baseRecord_eslm, if_pos h, if_pos h]
    exact ⟨rfl, rfl⟩
  · intro h
    refine ⟨(parsedMats (containsSub "SW_".toList model_file.toList)
        (effLMAX file LMAX) file.data).eclm,
      (parsedMats (containsSub "SW_".toList model_file.toList)
        (effLMAX file LMAX) file.data).eslm, ?_, ?_, ?_, ?_, ?_⟩
    · rw [baseRecord_eclm, if_neg (by rw [h]; simp)]
    · rw [baseRecord_eslm, if_neg (by rw [h]; simp)]
    · rw [baseRecord_clm, hdims.2.2.1, hdims.1]
    · rw [baseRecord_clm, hdims.2.2.2, hdims.1]
    · rw [baseRecord_clm, baseRecord_slm, hdims.2.1, hdims.1]

/-- C8: every record returned for a path containing `'SW_'` carries no
`eclm`/`eslm` at all, while for every other path both error matrices are
present with the same shape as `clm`/`slm`. -/
theorem swarm_error_matrices_absent (model_file : String) (file : GfcFile)
    (LMAX : Option ℕ) (TIDE : String) (off : String → ℚ → ℚ → String → ℚ)
    (tm : Option TimeMeta) (r : ModelRecord)
    (hok : read_core model_file file LMAX TIDE off tm = .ok r) :
    (containsSub "SW_".toList model_file.toList = true →
      r.eclm = none ∧ r.eslm = none) ∧
    (containsSub "SW_".toList model_file.toList = false →
      ∃ e1 e2, r.eclm = some e1 ∧ r.eslm = some e2 ∧
        e1.dim = r.clm.dim ∧ e2.dim = r.clm.dim ∧
        r.slm.dim = r.clm.dim) := by
  rw [read_core] at hok
  split at hok
  · split at hok
    · cases hok
      exact baseRecord_swarm model_file file LMAX tm
    · exact absurd hok (by simp)
  · cases hok
    exact baseRecord_swarm model_file file LMAX tm

/-- C8 (witness): a SWARM path yields a record with neither error
matrix. -/
theorem swarm_error_matrices_absent_witness :
    ∃ r, read_core "SW_OPER_EGF_SHA_2.gfc" fileD3 none "tide_free"
      constOffset7 none = .ok r ∧ r.eclm = none ∧ r.eslm = none :=
  ⟨_, rfl, (swarm_error_matrices_absent "SW_OPER_EGF_SHA_2.gfc" fileD3 none
    "tide_free" constOffset7 none _ rfl).1 (by decide)⟩

/-! ## Filename dispatch and temporal metadata

The Python source classifies the file by substring tests on the FULL path
(`'ITSG' in model_file`, `'SW_' in model_file`, `'COSTG' in model_file`)
and then runs a regular expression over `os.path.basename(model_file)`;
`rx.findall(...).pop()` raises an `IndexError` when the basename does not
match.  The regular expressions are modelled by structural parsers below
(leftmost occurrence for the lazy groups, literal alternatives for the
satellite and extension groups). -/

/-- Value of a nonempty digit string, as read by Python `int`. -/
def digitsToNat (l : List Char) : ℕ :=
  l.foldl (fun a c => 10 * a + (c.toNat - 48)) 0

/-- `os.path.basename`: the part of the path after the last `/`. -/
def basenameChars (l : List Char) : List Char :=
  l.foldl (fun acc c => if c = '/' then [] else acc ++ [c]) []

/-- The part of the GRAZ pattern after the satellite tag:
`(.*?)_(\d+)-(\d+)(\.gz|\.gfc|\.txt)` — a lazily matched truncation tag up
to the first `_`, then the year digits, `-`, the month digits and the
extension.  Returns `(year, month)` as converted by `int`. -/
def graz_tail_year_month (t : List Char) : Option (ℕ × ℕ) :=
  match splitFirst ['_'] t with
  | none => none
  | some (_trunc, rest) =>
    let y := rest.takeWhile Char.isDigit
    let r1 := rest.dropWhile Char.isDigit
    match r1 with
    | '-' :: r2 =>
      let m := r2.takeWhile Char.isDigit
      let r3 := r2.dropWhile Char.isDigit
      if y ≠ [] ∧ m ≠ [] ∧
          (r3 = ".gz".toList ∨ r3 = ".gfc".toList ∨ r3 = ".txt".toList) then
        some (digitsToNat y, digitsToNat m)
      else none
    | _ => none

/-- The GRAZ filename pattern
`(.*?)-(Grace_operational|Grace2018)_(.*?)_(\d+)-(\d+)(\.gz|\.gfc|\.txt)`
applied to the basename: extracts `(year, month)`. -/
def itsg_year_month (base : List Char) : Option (ℕ × ℕ) :=
  match splitFirst "-Grace_operational_".toList base with
  | some (_, t) => graz_tail_year_month t
  | none =>
    match splitFirst "-Grace2018_".toList base with
    | some (_, t) => graz_tail_year_month t
    | none => none

/-- The SWARM filename pattern
`(SW)_(.*?)_(EGF_SHA_2)__(.*?)_(.*?)_(.*?)(\.gz|\.gfc|\.txt)` applied to
the basename: the year is `int(start_date[:4])` and the month
`int(start_date[4:6])` of the fourth group. -/
def swarm_year_month (base : List Char) : Option (ℕ × ℕ) :=
  match splitFirst "SW_".toList base with
  | none => none
  | some (_, t) =>
    match splitFirst "_EGF_SHA_2__".toList t with
    | none => none
    | some (_, r) =>
      match splitFirst ['_'] r with
      | none => none
      | some (startDate, r2) =>
        match splitFirst ['_'] r2 with
        | none => none
        | some (_endDate, r3) =>
          if (containsSub ".gz".toList r3 ∨ containsSub ".gfc".toList r3 ∨
                containsSub ".txt".toList r3) ∧
              (startDate.take 4).all Char.isDigit ∧
              (startDate.take 4).length = 4 ∧
              ((startDate.drop 4).take 2).all Char.isDigit then
            some (digitsToNat (startDate.take 4),
                  digitsToNat ((startDate.drop 4).take 2))
          else none

/-- The COST-G filename pattern
`(.*?)-2_(\d+)-(\d+)_(.*?)_(COSTG)_(.*?)_(\d+)(.*?)(\.gz|\.gfc|\.txt)?$`
applied to the basename: the start/end codes are 4-digit years followed by
day-of-year digits, split as `SD[:4]`, `SD[4:]`, `ED[:4]`, `ED[4:]`. -/
def costg_groups (base : List Char) : Option (ℕ × ℕ × ℕ × ℕ) :=
  match splitFirst "-2_".toList base with
  | none => none
  | some (_, t) =>
    let sd := t.takeWhile Char.isDigit
    let r1 := t.dropWhile Char.isDigit
    match r1 with
    | '-' :: r2 =>
      let ed := r2.takeWhile Char.isDigit
      let r3 := r2.dropWhile Char.isDigit
      match r3 with
      | '_' :: r4 =>
        if sd ≠ [] ∧ ed ≠ [] ∧ containsSub "_COSTG_".toList ('_' :: r4) then
          some (digitsToNat (sd.take 4), digitsToNat (sd.drop 4),
                digitsToNat (ed.take 4), digitsToNat (ed.drop 4))
        else none
      | _ => none
    | _ => none

/-- Leap-year month-length table of the source. -/
def dpm_leap : List ℕ := [31, 29, 31, 30, 31, 30, 31, 31, 30, 31, 30, 31]

/-- Standard-year month-length table of the source. -/
def dpm_std : List ℕ := [31, 28, 31, 30, 31, 30, 31, 31, 30, 31, 30, 31]

/-- Days per year: 366 exactly when `year % 4 == 0` (Julian rule, no
century exception), else 365. -/
def dpy (year : ℕ) : ℚ := if year % 4 = 0 then 366 else 365

/-- Month-length table selected by the same `year % 4 == 0` test. -/
def dpm (year : ℕ) : List ℕ := if year % 4 = 0 then dpm_leap else dpm_std

/-- `start_day = np.sum(dpm[:month - 1]) + 1`. -/
def start_day (year month : ℕ) : ℕ := ((dpm year).take (month - 1)).sum + 1

/-- `end_day = np.sum(dpm[:month])`. -/
def end_day (year month : ℕ) : ℕ := ((dpm year).take month).sum

/-- `mid_day = np.mean([start_day, end_day])`. -/
def mid_day (year month : ℕ) : ℚ :=
  ((start_day year month : ℚ) + (end_day year month : ℚ)) / 2

/-- The Julian-date formula of the source, applied to a year and a
day-of-year value. -/
def julian_date (year day : ℚ) : ℚ :=
  367 * year - ((Int.floor (7 * year / 4) : ℤ) : ℚ)
    - ((Int.floor (3 * (((Int.floor ((year - 8/7) / 100) : ℤ) : ℚ) + 1) / 4) : ℤ) : ℚ)
    + ((Int.floor ((275 : ℚ) / 9) : ℤ) : ℚ) + day + 1721028.5

/-- Temporal metadata of the GRAZ/SWARM branch: decimal mid-month time and
Julian start/end dates. -/
def graz_time_meta (year month : ℕ) : TimeMeta :=
  { time := (year : ℚ) + mid_day year month / dpy year
    start := julian_date (year : ℚ) ((start_day year month : ℕ) : ℚ)
    end_ := julian_date (year : ℚ) ((end_day year month : ℕ) : ℚ) }

/-- Temporal metadata of the COST-G branch: the end day is made cyclic for
the mid-point mean, while the Julian dates use the literal (year, day)
pairs. -/
def costg_time_meta (sy sd ey ed : ℕ) : TimeMeta :=
  { time := (sy : ℚ) + (((sd : ℚ) + (((ey : ℚ) - (sy : ℚ)) * dpy sy + (ed : ℚ))) / 2) / dpy sy
    start := julian_date (sy : ℚ) ((sd : ℕ) : ℚ)
    end_ := julian_date (ey : ℚ) ((ed : ℕ) : ℚ) }

/-- Embedding of the whole of `read_ICGEM_harmonics`: substring dispatch
on the FULL path, filename-pattern extraction on the basename (an
`IndexError` from `.pop()` on an empty `findall` result when the basename
does not match), temporal metadata for the three named formats, then the
header/data/tide stage `read_core`. -/
def read_ICGEM_harmonics (model_file : String) (file : GfcFile)
    (LMAX : Option ℕ) (TIDE : String)
    (calculate_tidal_offset : String → ℚ → ℚ → String → ℚ) :
    Except String ModelRecord :=
  if containsSub "ITSG".toList model_file.toList then
    match itsg_year_month (basenameChars model_file.toList) with
    | none => .error "IndexError: pop from empty list"
    | some (y, m) =>
        read_core model_file file LMAX TIDE calculate_tidal_offset
          (some (graz_time_meta y m))
  else if containsSub "SW_".toList model_file.toList then
    match swarm_year_month (basenameChars model_file.toList) with
    | none => .error "IndexError: pop from empty list"
    | some (y, m) =>
        read_core model_file file LMAX TIDE calculate_tidal_offset
          (some (graz_time_meta y m))
  else if containsSub "COSTG".toList model_file.toList then
    match costg_groups (basenameChars model_file.toList) with
    | none => .error "IndexError: pop from empty list"
    | some (sy, sd, ey, ed) =>
        read_core model_file file LMAX TIDE calculate_tidal_offset
          (some (costg_time_meta sy sd ey ed))
  else
    read_core model_file file LMAX TIDE calculate_tidal_offset none

/-! ## Claim C2 -/

theorem graz_time_2008_05 : (graz_time_meta 2008 5).time = 2008 + 137/366 := by
  show (2008 : ℚ) + mid_day 2008 5 / dpy 2008 = 2008 + 137/366
  rw [mid_day, show start_day 2008 5 = 122 from by decide,
    show end_day 2008 5 = 152 from by decide, dpy]
  norm_num

/-- C2 (counterexample): `ITSG-Grace2018_n96_2008-05.gfc` parses to
`year = 2008, month = 5`, but `2008 % 4 == 0`, so the source selects the
LEAP-year table: `start_day` is 122, not 121, and the stored decimal time
is `2008 + 137/366`, not `2008 + 136/365`. -/
theorem itsg_2008_05_not_standard_year :
    itsg_year_month "ITSG-Grace2018_n96_2008-05.gfc".toList = some (2008, 5) ∧
    start_day 2008 5 = 122 ∧ ¬ start_day 2008 5 = 121 ∧
    ¬ (graz_time_meta 2008 5).time = 2008 + 136/365 := by
  refine ⟨by decide, by decide, by decide, ?_⟩
  rw [graz_time_2008_05]
  norm_num

/-- C2 (amended): the file `ITSG-Grace2018_n96_2008-05.gfc` parses to
`year = 2008, month = 5`; since `2008 % 4 == 0` the leap-year table is
used, giving `start_day = 122`, `end_day = 152`, and the stored
decimal-year time `2008 + 137/366`. -/
theorem itsg_2008_05_leap_year_time :
    itsg_year_month "ITSG-Grace2018_n96_2008-05.gfc".toList = some (2008, 5) ∧
    start_day 2008 5 = 122 ∧ end_day 2008 5 = 152 ∧
    (graz_time_meta 2008 5).time = 2008 + 137/366 ∧
    ∃ r, read_ICGEM_harmonics "ITSG-Grace2018_n96_2008-05.gfc" fileD3 none
      "tide_free" constOffset7 = .ok r ∧ r.time = some (2008 + 137/366) := by
  have hp : itsg_year_month
      (basenameChars "ITSG-Grace2018_n96_2008-05.gfc".toList) = some (2008, 5) := by
    decide
  refine ⟨by decide, by decide, by decide, graz_time_2008_05,
    baseRecord "ITSG-Grace2018_n96_2008-05.gfc" fileD3 none
      (some (graz_time_meta 2008 5)), ?_, ?_⟩
  · rw [read_ICGEM_harmonics, if_pos (by decide), hp]
    show read_core "ITSG-Grace2018_n96_2008-05.gfc" fileD3 none "tide_free"
      constOffset7 (some (graz_time_meta 2008 5)) = _
    rw [read_core, if_neg (by decide)]
  · show some ((graz_time_meta 2008 5).time) = some (2008 + 137/366)
    rw [graz_time_2008_05]

/-! ## Claim C10 -/

/-- C10: the substring dispatch looks at the full path while the filename
pattern is applied only to the basename.  First part: a path whose
directory contains `ITSG` but whose basename matches no named-format
pattern makes the read fail with the empty-`findall` `IndexError`, even
though the generic ICGEM stage (`read_core` with no temporal metadata)
would have succeeded on the same input.  Second part: a directory
containing `SW_` suppresses the `eclm`/`eslm` matrices even though the
file itself is a GRAZ-format file read through the ITSG branch. -/
theorem dispatch_substring_on_full_path :
    (read_ICGEM_harmonics "/models/ITSG/EGM2008.gfc" fileD3 none "tide_free"
        constOffset7 = .error "IndexError: pop from empty list" ∧
      ∃ r, read_core "/models/ITSG/EGM2008.gfc" fileD3 none "tide_free"
        constOffset7 none = .ok r) ∧
    (∃ r, read_ICGEM_harmonics "/SW_archive/ITSG-Grace2018_n96_2008-05.gfc"
        fileD3 none "tide_free" constOffset7 = .ok r ∧
      r.eclm = none ∧ r.eslm = none) := by
  exact ⟨⟨rfl, _, rfl⟩, _, rfl, rfl, rfl⟩
